import Mathlib

/-!
Verification of the `EnhancedLoggingMiddleware` HTTP observability interceptor
(`src/middleware.py`).  The Python source is shallowly embedded: byte strings
are `List Nat`, text strings are `String`, floats (timestamps, latencies,
sampling rates) are `ℚ`, JSON values are the mutual inductive `Json`, and the
per-request hook `dispatch` is a pure function that threads the process-wide
aggregator state, the clock readings, the random draw and the downstream
continuation explicitly.
-/

set_option maxRecDepth 1000000

/-- The character with a given code point, used for characters that are
awkward to write literally. -/
def chr (n : Nat) : Char := Char.ofNat n

/-- Opening curly brace character. -/
def lbrace : Char := chr 123

/-- Closing curly brace character. -/
def rbrace : Char := chr 125

/-- Double-quote character. -/
def dquote : Char := chr 34

/-- Models Python `str.lower()` on the ASCII range (the only range the
middleware compares: header names and the fixed sensitive-field names). -/
def pyLower (s : String) : String :=
  String.mk (s.data.map fun c =>
    if 65 ≤ c.toNat ∧ c.toNat ≤ 90 then chr (c.toNat + 32) else c)

/-- Models Python string slicing `s[:n]` (by code points). -/
def pyTake (s : String) (n : Nat) : String :=
  String.mk (s.data.take n)

/-- UTF-8 encoding of one character, as byte values. -/
def utf8EncodeChar (c : Char) : List Nat :=
  let n := c.toNat
  if n < 0x80 then [n]
  else if n < 0x800 then [0xC0 + n / 0x40, 0x80 + n % 0x40]
  else if n < 0x10000 then
    [0xE0 + n / 0x1000, 0x80 + (n / 0x40) % 0x40, 0x80 + n % 0x40]
  else
    [0xF0 + n / 0x40000, 0x80 + (n / 0x1000) % 0x40,
     0x80 + (n / 0x40) % 0x40, 0x80 + n % 0x40]

/-- UTF-8 encoding of a string: models Python `str.encode()` / the byte view
of a `str`. -/
def utf8Encode (s : String) : List Nat :=
  (s.data.map utf8EncodeChar).flatten

/-- Models Python `len(b)` for the byte string underlying a text body. -/
def utf8Len (s : String) : Nat :=
  (utf8Encode s).length

/-- Fuel-driven strict UTF-8 decoder.  Rejects invalid lead or continuation
bytes, overlong encodings, surrogate code points and out-of-range values,
exactly the inputs on which Python `bytes.decode()` raises
`UnicodeDecodeError`. -/
def utf8DecodeF : Nat → List Nat → Option (List Char)
  | 0, _ => none
  | _ + 1, [] => some []
  | fuel + 1, b :: bs =>
    if b < 0x80 then (utf8DecodeF fuel bs).map (chr b :: ·)
    else if b < 0xC2 then none
    else if b < 0xE0 then
      match bs with
      | b1 :: bs1 =>
        if 0x80 ≤ b1 ∧ b1 < 0xC0 then
          (utf8DecodeF fuel bs1).map (chr ((b - 0xC0) * 0x40 + (b1 - 0x80)) :: ·)
        else none
      | [] => none
    else if b < 0xF0 then
      match bs with
      | b1 :: b2 :: bs2 =>
        if (0x80 ≤ b1 ∧ b1 < 0xC0) ∧ (0x80 ≤ b2 ∧ b2 < 0xC0) then
          let n := (b - 0xE0) * 0x1000 + (b1 - 0x80) * 0x40 + (b2 - 0x80)
          if 0x800 ≤ n ∧ ¬(0xD800 ≤ n ∧ n ≤ 0xDFFF) then
            (utf8DecodeF fuel bs2).map (chr n :: ·)
          else none
        else none
      | _ => none
    else if b < 0xF5 then
      match bs with
      | b1 :: b2 :: b3 :: bs3 =>
        if (0x80 ≤ b1 ∧ b1 < 0xC0) ∧ (0x80 ≤ b2 ∧ b2 < 0xC0) ∧ (0x80 ≤ b3 ∧ b3 < 0xC0) then
          let n := (b - 0xF0) * 0x40000 + (b1 - 0x80) * 0x1000 +
                   (b2 - 0x80) * 0x40 + (b3 - 0x80)
          if 0x10000 ≤ n ∧ n ≤ 0x10FFFF then
            (utf8DecodeF fuel bs3).map (chr n :: ·)
          else none
        else none
      | _ => none
    else none

/-- Models Python `bytes.decode()` (strict UTF-8): `none` exactly when the
decode raises. -/
def utf8Decode (bs : List Nat) : Option String :=
  (utf8DecodeF (bs.length + 1) bs).map String.mk

/-- Models the Python substring test `needle in hay` used for content types. -/
def strIn (needle hay : String) : Bool :=
  decide (needle.data <:+: hay.data)

mutual
/-- JSON-like values as produced by Python `json.loads` and consumed by
`json.dumps`: `null`, booleans, numbers, strings, arrays and objects
(insertion-ordered key/value maps, as Python dicts are). -/
inductive Json where
  | null
  | bool (b : Bool)
  | num (q : ℚ)
  | str (s : String)
  | arr (xs : JsonArr)
  | obj (kvs : JsonObj)
/-- A JSON array: a list of JSON values. -/
inductive JsonArr where
  | nil
  | cons (hd : Json) (tl : JsonArr)
/-- A JSON object: an insertion-ordered association list from string keys to
JSON values, mirroring a Python dict. -/
inductive JsonObj where
  | nil
  | cons (k : String) (v : Json) (tl : JsonObj)
end

/-- Build a `JsonObj` from a list of pairs (keys assumed distinct). -/
def objOfList : List (String × Json) → JsonObj
  | [] => .nil
  | (k, v) :: tl => .cons k v (objOfList tl)

/-- Build a `JsonArr` from a list of values. -/
def arrOfList : List Json → JsonArr
  | [] => .nil
  | v :: tl => .cons v (arrOfList tl)

/-- The keys of a JSON object, in insertion order. -/
def JsonObj.keys : JsonObj → List String
  | .nil => []
  | .cons k _ tl => k :: tl.keys

/-- First value stored under a key, like Python `d[k]` on a dict whose keys
are unique. -/
def JsonObj.lookupKey : JsonObj → String → Option Json
  | .nil, _ => none
  | .cons k v tl, key => if k == key then some v else tl.lookupKey key

/-- Field access on a JSON object value; `none` on other values or missing
keys. -/
def jfind (j : Json) (key : String) : Option Json :=
  match j with
  | .obj kvs => kvs.lookupKey key
  | _ => none

/-- Top-level keys of a JSON object value. -/
def jkeys (j : Json) : List String :=
  match j with
  | .obj kvs => kvs.keys
  | _ => []

/-- Python dict insert-or-update: an existing key keeps its position and gets
the new value, a new key is appended.  Models building a dict from pairs with
duplicate keys (last value wins). -/
def JsonObj.setKey : JsonObj → String → Json → JsonObj
  | .nil, key, v => .cons key v .nil
  | .cons k w tl, key, v =>
    if k == key then .cons k v tl else .cons k w (tl.setKey key v)

/-- Digit character for a value below 10. -/
def digitChar (n : Nat) : Char := chr (48 + n)

/-- Fuel-driven decimal digits of a natural number, most significant first. -/
def natDigitsF : Nat → Nat → List Char
  | 0, _ => []
  | fuel + 1, n =>
    if n < 10 then [digitChar n]
    else natDigitsF fuel (n / 10) ++ [digitChar (n % 10)]

/-- Decimal digits of a natural number. -/
def natChars (n : Nat) : List Char := natDigitsF (n + 1) n

/-- Decimal representation of an integer, as Python `str(int)` prints it. -/
def intChars (i : Int) : List Char :=
  if i < 0 then '-' :: natChars (-i).toNat else natChars i.toNat

/-- Lowercase hexadecimal digit character. -/
def hexDigitChar (n : Nat) : Char :=
  if n < 10 then chr (48 + n) else chr (87 + n)

/-- Four lowercase hex digits, as in a JSON `\uXXXX` escape. -/
def hex4 (n : Nat) : List Char :=
  [hexDigitChar (n / 0x1000 % 16), hexDigitChar (n / 0x100 % 16),
   hexDigitChar (n / 0x10 % 16), hexDigitChar (n % 16)]

/-- Escape of one character inside a serialized JSON string, following
Python `json.dumps`: quote and backslash escaped, the five short control
escapes, `\uXXXX` for other control characters, and — when `ensure_ascii`
is set, as in the middleware's `json.dumps(...)` calls — `\uXXXX` (with
surrogate pairs) for every character outside the printable ASCII range. -/
def escChar (ensure_ascii : Bool) (c : Char) : List Char :=
  if c = dquote then ['\\', dquote]
  else if c = '\\' then ['\\', '\\']
  else if c = chr 10 then ['\\', 'n']
  else if c = chr 9 then ['\\', 't']
  else if c = chr 13 then ['\\', 'r']
  else if c = chr 8 then ['\\', 'b']
  else if c = chr 12 then ['\\', 'f']
  else if c.toNat < 0x20 then '\\' :: 'u' :: hex4 c.toNat
  else if c.toNat ≤ 0x7E then [c]
  else if ensure_ascii then
    if c.toNat < 0x10000 then '\\' :: 'u' :: hex4 c.toNat
    else
      '\\' :: 'u' :: hex4 (0xD800 + (c.toNat - 0x10000) / 0x400) ++
      '\\' :: 'u' :: hex4 (0xDC00 + (c.toNat - 0x10000) % 0x400)
  else [c]

/-- Serialized JSON string literal (opening quote, escaped body, closing
quote). -/
def dumpStr (ensure_ascii : Bool) (s : String) : List Char :=
  dquote :: (s.data.map (escChar ensure_ascii)).flatten ++ [dquote]

/-- Decimal expansion used for non-integral JSON numbers.  Modelled: Python
prints floats with a shortest round-trip decimal; the middleware's claims
never depend on this branch (all numbers arising in body serialization are
integers), so a plain 17-digit expansion stands in for it. -/
def fracChars : Nat → ℚ → List Char
  | 0, _ => []
  | fuel + 1, q =>
    let q10 := q * 10
    let d := q10.floor.toNat
    if q10 - q10.floor = 0 then [digitChar d]
    else digitChar d :: fracChars fuel (q10 - q10.floor)

/-- Serialization of a JSON number.  Integers print as Python ints do;
non-integral values take the modelled decimal branch of `fracChars`. -/
def dumpNum (q : ℚ) : List Char :=
  if q.den = 1 then intChars q.num
  else if q < 0 then
    '-' :: (natChars (-q).floor.toNat ++ '.' :: fracChars 17 (-q - (-q).floor))
  else natChars q.floor.toNat ++ '.' :: fracChars 17 (q - q.floor)

mutual
/-- Serialization of a JSON value with the given item and key separators,
following Python `json.dumps(value, separators=(itemSep, kvSep))` with
`ensure_ascii` as given.  The middleware calls it with the defaults
`(", ", ": ")` and `ensure_ascii=True`. -/
def dumpsWith (ea : Bool) (isep ksep : List Char) : Json → List Char
  | .null => "null".data
  | .bool true => "true".data
  | .bool false => "false".data
  | .num q => dumpNum q
  | .str s => dumpStr ea s
  | .arr .nil => "[]".data
  | .arr (.cons h t) => '[' :: (dumpsWith ea isep ksep h ++ dumpsArr ea isep ksep t) ++ [']']
  | .obj .nil => [lbrace, rbrace]
  | .obj (.cons k v t) =>
    lbrace :: (dumpStr ea k ++ ksep ++ dumpsWith ea isep ksep v ++ dumpsObj ea isep ksep t) ++ [rbrace]
/-- Comma-prefixed serialization of the remaining array items. -/
def dumpsArr (ea : Bool) (isep ksep : List Char) : JsonArr → List Char
  | .nil => []
  | .cons h t => isep ++ dumpsWith ea isep ksep h ++ dumpsArr ea isep ksep t
/-- Comma-prefixed serialization of the remaining object members. -/
def dumpsObj (ea : Bool) (isep ksep : List Char) : JsonObj → List Char
  | .nil => []
  | .cons k v t => isep ++ dumpStr ea k ++ ksep ++ dumpsWith ea isep ksep v ++ dumpsObj ea isep ksep t
end

/-- Models Python `json.dumps(value)` with its default separators
`(", ", ": ")` and default `ensure_ascii=True`, as called on line 133 of the
source. -/
def json_dumps (j : Json) : String :=
  String.mk (dumpsWith true ", ".data ": ".data j)

/-- Models the compact `json.dumps(content, ensure_ascii=False,
separators=(",", ":"))` used by the framework's `JSONResponse` renderer. -/
def json_dumps_compact (j : Json) : String :=
  String.mk (dumpsWith false ",".data ":".data j)

/-- JSON whitespace skipping (space, tab, newline, carriage return). -/
def skipWs : List Char → List Char
  | c :: cs =>
    if c = ' ' ∨ c = chr 9 ∨ c = chr 10 ∨ c = chr 13 then skipWs cs else c :: cs
  | [] => []

/-- Hex digit value of a character, if any. -/
def hexVal (c : Char) : Option Nat :=
  if 48 ≤ c.toNat ∧ c.toNat ≤ 57 then some (c.toNat - 48)
  else if 97 ≤ c.toNat ∧ c.toNat ≤ 102 then some (c.toNat - 87)
  else if 65 ≤ c.toNat ∧ c.toNat ≤ 70 then some (c.toNat - 55)
  else none

/-- Parse exactly four hex digits. -/
def parseHex4 : List Char → Option (Nat × List Char)
  | c1 :: c2 :: c3 :: c4 :: rest => do
    let h1 ← hexVal c1
    let h2 ← hexVal c2
    let h3 ← hexVal c3
    let h4 ← hexVal c4
    pure (h1 * 0x1000 + h2 * 0x100 + h3 * 0x10 + h4, rest)
  | _ => none

/-- Fuel-driven parser for the body of a JSON string literal (after the
opening quote), with the standard escapes.  `\uXXXX` pairs of surrogates
combine into one character; a lone surrogate fails (Python would build a
lone-surrogate `str`, which the Lean `Char` type cannot represent — no claim
depends on such inputs). -/
def parseStrF : Nat → List Char → Option (List Char × List Char)
  | 0, _ => none
  | _ + 1, [] => none
  | fuel + 1, c :: cs =>
    if c = dquote then some ([], cs)
    else if c = '\\' then
      match cs with
      | [] => none
      | e :: cs1 =>
        if e = dquote then (parseStrF fuel cs1).map (fun p => (dquote :: p.1, p.2))
        else if e = '\\' then (parseStrF fuel cs1).map (fun p => ('\\' :: p.1, p.2))
        else if e = '/' then (parseStrF fuel cs1).map (fun p => ('/' :: p.1, p.2))
        else if e = 'n' then (parseStrF fuel cs1).map (fun p => (chr 10 :: p.1, p.2))
        else if e = 't' then (parseStrF fuel cs1).map (fun p => (chr 9 :: p.1, p.2))
        else if e = 'r' then (parseStrF fuel cs1).map (fun p => (chr 13 :: p.1, p.2))
        else if e = 'b' then (parseStrF fuel cs1).map (fun p => (chr 8 :: p.1, p.2))
        else if e = 'f' then (parseStrF fuel cs1).map (fun p => (chr 12 :: p.1, p.2))
        else if e = 'u' then
          match parseHex4 cs1 with
          | none => none
          | some (n, cs2) =>
            if 0xD800 ≤ n ∧ n ≤ 0xDBFF then
              match cs2 with
              | '\\' :: 'u' :: cs3 =>
                match parseHex4 cs3 with
                | some (m, cs4) =>
                  if 0xDC00 ≤ m ∧ m ≤ 0xDFFF then
                    (parseStrF fuel cs4).map
                      (fun p => (chr (0x10000 + (n - 0xD800) * 0x400 + (m - 0xDC00)) :: p.1, p.2))
                  else none
                | none => none
              | _ => none
            else if 0xDC00 ≤ n ∧ n ≤ 0xDFFF then none
            else (parseStrF fuel cs2).map (fun p => (chr n :: p.1, p.2))
        else none
    else if c.toNat < 0x20 then none
    else (parseStrF fuel cs).map (fun p => (c :: p.1, p.2))

/-- Parse a run of decimal digits. -/
def parseDigits : List Char → List Char × List Char
  | [] => ([], [])
  | c :: cs =>
    if 48 ≤ c.toNat ∧ c.toNat ≤ 57 then
      let p := parseDigits cs
      (c :: p.1, p.2)
    else ([], c :: cs)

/-- Value of a list of decimal digit characters. -/
def digitsVal : List Char → Nat
  | [] => 0
  | c :: cs => (c.toNat - 48) * 10 ^ cs.length + digitsVal cs

/-- Parse a JSON integer (optional minus sign, no leading zeros).  Modelled:
Python also accepts fractional and exponent forms as floats; this model
covers the integer grammar only, and fails (body falls to the
`Unable to read body` sentinel) on the rest — no claim depends on float
bodies. -/
def parseNum : List Char → Option (Json × List Char)
  | '-' :: cs =>
    match parseDigits cs with
    | ([], _) => none
    | (d :: ds, rest) =>
      if d = '0' ∧ ds ≠ [] then none
      else
        match rest with
        | '.' :: _ => none
        | 'e' :: _ => none
        | 'E' :: _ => none
        | _ => some (.num (-(digitsVal (d :: ds) : Int)), rest)
  | cs =>
    match parseDigits cs with
    | ([], _) => none
    | (d :: ds, rest) =>
      if d = '0' ∧ ds ≠ [] then none
      else
        match rest with
        | '.' :: _ => none
        | 'e' :: _ => none
        | 'E' :: _ => none
        | _ => some (.num (digitsVal (d :: ds) : ℚ), rest)

/-- Fold the members of the second object into the first with dict
insert-or-update semantics, in order. -/
def JsonObj.setKeyAll : JsonObj → JsonObj → JsonObj
  | acc, .nil => acc
  | acc, .cons k v tl => (acc.setKey k v).setKeyAll tl

mutual
/-- Fuel-driven parser for one JSON value (leading whitespace allowed),
following the grammar Python `json.loads` accepts. -/
def parseValF : Nat → List Char → Option (Json × List Char)
  | 0, _ => none
  | fuel + 1, cs0 =>
    match skipWs cs0 with
    | [] => none
    | c :: cs =>
      if c = dquote then (parseStrF (fuel + 1) cs).map (fun p => (Json.str (String.mk p.1), p.2))
      else if c = '[' then
        match skipWs cs with
        | ']' :: rest => some (.arr .nil, rest)
        | cs1 => (parseArrF fuel cs1).map (fun p => (Json.arr p.1, p.2))
      else if c = lbrace then
        match skipWs cs with
        | cs1 =>
          if cs1.head? = some rbrace then some (.obj .nil, cs1.tail)
          else (parseObjF fuel cs1).map (fun p => (Json.obj p.1, p.2))
      else if c = 'n' then
        match cs with
        | 'u' :: 'l' :: 'l' :: rest => some (.null, rest)
        | _ => none
      else if c = 't' then
        match cs with
        | 'r' :: 'u' :: 'e' :: rest => some (.bool true, rest)
        | _ => none
      else if c = 'f' then
        match cs with
        | 'a' :: 'l' :: 's' :: 'e' :: rest => some (.bool false, rest)
        | _ => none
      else parseNum (c :: cs)
/-- Parse the comma-separated items of a non-empty JSON array, up to and
including the closing bracket. -/
def parseArrF : Nat → List Char → Option (JsonArr × List Char)
  | 0, _ => none
  | fuel + 1, cs => do
    let (v, cs1) ← parseValF fuel cs
    match skipWs cs1 with
    | ',' :: cs2 => do
      let (tl, cs3) ← parseArrF fuel cs2
      pure (JsonArr.cons v tl, cs3)
    | ']' :: cs2 => pure (JsonArr.cons v .nil, cs2)
    | _ => none
/-- Parse the comma-separated members of a non-empty JSON object, up to and
including the closing brace, accumulating them with dict semantics
(duplicate keys: last value wins, first position kept). -/
def parseObjF : Nat → List Char → Option (JsonObj × List Char)
  | 0, _ => none
  | fuel + 1, cs =>
    match skipWs cs with
    | c :: cs1 =>
      if c = dquote then do
        let (kcs, cs2) ← parseStrF (fuel + 1) cs1
        match skipWs cs2 with
        | ':' :: cs3 => do
          let (v, cs4) ← parseValF fuel cs3
          match skipWs cs4 with
          | ',' :: cs5 => do
            let (tl, cs6) ← parseObjF fuel cs5
            pure ((JsonObj.cons (String.mk kcs) v .nil).setKeyAll tl, cs6)
          | cs5 =>
            if cs5.head? = some rbrace then pure (JsonObj.cons (String.mk kcs) v .nil, cs5.tail)
            else none
        | _ => none
      else none
    | [] => none
end

/-- Models Python `json.loads` on a text body: parse one JSON value with
optional surrounding whitespace, rejecting trailing garbage; `none` exactly
when `json.loads` raises. -/
def json_loads (s : String) : Option Json :=
  match parseValF (s.data.length + 1) s.data with
  | some (j, rest) => if skipWs rest = [] then some j else none
  | none => none

/-- Excluded path set, line 24 of the source. -/
def EXCLUDED_PATHS : List String := ["/health", "/favicon.ico"]

/-- Loggable content types, line 25 of the source. -/
def LOGGABLE_CONTENT_TYPES : List String := ["application/json", "text/plain"]

/-- Maximum size in bytes for logged body content, line 29 of the source. -/
def MAX_BODY_SIZE : Nat := 1024

/-- Sensitive fields to mask in request bodies, line 33 of the source. -/
def SENSITIVE_FIELDS : List String := ["password", "token"]

/-- Application version constant, line 20 of the source. -/
def app_version : String := "1.0.0"

/-- Python `logging.ERROR`. -/
def LOG_ERROR : Nat := 40

/-- Python `logging.WARNING`. -/
def LOG_WARNING : Nat := 30

/-- Python `logging.INFO`. -/
def LOG_INFO : Nat := 20

mutual
/-- Models `mask_sensitive_data` (lines 44-47): on a dict, rebuild it key by
key, replacing the value of a key whose lowercase form is sensitive by the
mask token and recursing into the other values; any non-dict value (arrays
included) is returned unchanged. -/
def mask_sensitive_data : Json → Json
  | .obj kvs => .obj (maskItems kvs)
  | data => data
/-- The dict comprehension inside `mask_sensitive_data`, member by member. -/
def maskItems : JsonObj → JsonObj
  | .nil => .nil
  | .cons k v tl =>
    .cons k
      (if (SENSITIVE_FIELDS.contains (pyLower k)) = false then mask_sensitive_data v
       else .str "*****")
      (maskItems tl)
end

/-- Models `EnhancedLoggingMiddleware.determine_log_level` (lines 118-126),
with the process-wide `LATENCY_THRESHOLD` passed explicitly. -/
def determine_log_level (LATENCY_THRESHOLD : ℚ) (status_code : Nat) (process_time : ℚ) : Nat :=
  if status_code ≥ 500 then LOG_ERROR
  else if status_code ≥ 400 then LOG_WARNING
  else if process_time > LATENCY_THRESHOLD then LOG_WARNING
  else LOG_INFO

/-- Models `EnhancedLoggingMiddleware.get_request_body` (lines 128-135).
The body is the request's byte stream, modelled as text whose `len()` is its
UTF-8 byte count.  `json.loads` failure (and any other read failure) is the
`Unable to read body` sentinel; on success the masked body is re-serialized
and the raw byte length — not the serialized length — decides between the
truncated serialization and the `Body too large to log` sentinel. -/
def get_request_body (body : String) : String :=
  match json_loads body with
  | none => "Unable to read body"
  | some body_json =>
    let masked_body := mask_sensitive_data body_json
    if utf8Len body ≤ MAX_BODY_SIZE then pyTake (json_dumps masked_body) MAX_BODY_SIZE
    else "Body too large to log"

/-- A downstream exception, carrying `str(e)`. -/
structure PyExn where
  msg : String

/-- An exception leaving `dispatch` uncaught: a downstream exception
propagated on the skip path, or the `UnicodeDecodeError` raised by
`response_body.decode()` in `get_response_content` (line 144), which no
`try` block covers. -/
inductive Raised where
  | exn (e : PyExn)
  | unicodeDecodeError

/-- A response as the middleware sees it: status code, headers, and the body
byte stream as a finite sequence of byte chunks. -/
structure Response where
  status_code : Nat
  headers : List (String × String)
  body_iterator : List (List Nat)

/-- Models Starlette `headers.get(key, default)` without the default:
case-insensitive lookup of the first matching header. -/
def headersGet (hs : List (String × String)) (key : String) : Option String :=
  match hs.find? (fun kv => pyLower kv.1 == pyLower key) with
  | some kv => some kv.2
  | none => none

/-- The content-type test of line 139: some loggable content type occurs as a
substring of the response's content-type header (defaulting to the empty
string). -/
def isLoggable (response : Response) : Bool :=
  LOGGABLE_CONTENT_TYPES.any (fun t => strIn t ((headersGet response.headers "content-type").getD ""))

/-- Models `EnhancedLoggingMiddleware.get_response_content` (lines 137-145).
For a loggable content type the body stream is drained into one byte string,
the stream is replaced by the single-chunk iterator over exactly those bytes,
and the content is the decoded (≤ max size) body or the oversize sentinel;
`bytes.decode()` raising on invalid UTF-8 is the `.error` case, uncaught in
the source.  A non-loggable response is returned untouched with the skip
sentinel. -/
def get_response_content (response : Response) : Except Raised (String × Response) :=
  if isLoggable response then
    let response_body := response.body_iterator.flatten
    let response2 := { response with body_iterator := [response_body] }
    if response_body.length ≤ MAX_BODY_SIZE then
      match utf8Decode (response_body.take MAX_BODY_SIZE) with
      | some s => .ok (s, response2)
      | none => .error .unicodeDecodeError
    else .ok ("Response too large to log", response2)
  else .ok ("Skipped logging due to content type", response)

/-- A request as the middleware sees it: method, URL path, raw headers, raw
query parameters, the body (as text; its `len()` is the UTF-8 byte count)
and the client address. -/
structure Request where
  method : String
  path : String
  headers : List (String × String)
  query_params : List (String × String)
  body : String
  client_host : String

/-- Models `traceback.format_exc()` (line 70): the returned trace always
starts with the fixed `Traceback (most recent call last):` header line, so
it is never empty; the frame text is abstracted to the exception message. -/
def format_exc (e : PyExn) : String :=
  "Traceback (most recent call last):" ++ String.mk [chr 10] ++ e.msg

/-- Models `fastapi.responses.JSONResponse(content, status_code)`: the body
stream is the single chunk holding the UTF-8 bytes of the compact JSON
serialization of the content. -/
def JSONResponse (content : Json) (status_code : Nat) : Response :=
  { status_code := status_code,
    headers := [("content-type", "application/json")],
    body_iterator := [utf8Encode (json_dumps_compact content)] }

/-- The body of the generic 500 response of line 76. -/
def internalServerErrorBody : Json :=
  Json.obj (objOfList [("detail", Json.str "Internal Server Error")])

/-- Python `dict(pairs)` on string pairs: duplicate keys keep their first
position and take their last value.  Models `dict(request.headers)` and
`dict(request.query_params)` (lines 89-90). -/
def pyDict (l : List (String × String)) : List (String × String) :=
  l.foldl (fun d p =>
    if d.any (fun q => q.1 == p.1) then d.map (fun q => if q.1 == p.1 then (q.1, p.2) else q)
    else d ++ [p]) []

/-- The header comprehension of line 89: every header whose lowercase name is
`authorization` is masked, the rest pass through. -/
def redactHeaders (hs : List (String × String)) : List (String × String) :=
  (pyDict hs).map (fun kv => (kv.1, if pyLower kv.1 ≠ "authorization" then kv.2 else "*****"))

/-- A string-valued association list as a JSON object. -/
def strPairsToJson (l : List (String × String)) : Json :=
  Json.obj (objOfList (l.map (fun kv => (kv.1, Json.str kv.2))))

/-- Models the `log_details` dict of lines 83-104, with the collaborator
values (hostname, correlation id, clock reading, response status and
captured content, latency) passed in as the code computes them. -/
def build_log_details (hostname : String) (request : Request) (correlation_id : String)
    (event_ts : ℚ) (status_code : Nat) (content : String) (process_time : ℚ) : Json :=
  Json.obj (objOfList [
    ("event_type", Json.str "http_request"),
    ("event_timestamp", Json.num event_ts),
    ("request", Json.obj (objOfList [
      ("method", Json.str request.method),
      ("url", Json.str request.path),
      ("headers", strPairsToJson (redactHeaders request.headers)),
      ("query_params", strPairsToJson (pyDict request.query_params)),
      ("body", Json.str (get_request_body request.body))])),
    ("response", Json.obj (objOfList [
      ("status_code", Json.num status_code),
      ("content", Json.str content),
      ("latency", Json.num process_time)])),
    ("metadata", Json.obj (objOfList [
      ("correlation_id", Json.str correlation_id),
      ("client_ip", Json.str request.client_host),
      ("hostname", Json.str hostname),
      ("app_version", Json.str app_version)]))])

/-- Models the `error_log` dict of lines 65-74. -/
def build_error_log (request : Request) (correlation_id : String) (event_ts : ℚ)
    (e : PyExn) : Json :=
  Json.obj (objOfList [
    ("event_type", Json.str "http_request"),
    ("event_timestamp", Json.num event_ts),
    ("correlation_id", Json.str correlation_id),
    ("error", Json.str e.msg),
    ("traceback", Json.str (format_exc e)),
    ("method", Json.str request.method),
    ("url", Json.str request.path),
    ("client_ip", Json.str request.client_host)])

/-- The process-wide aggregation state: `request_count` and `status_counter`
(lines 40-41).  The counter is an insertion-ordered association list from
status code to count, as a Python `Counter` is. -/
structure AggState where
  request_count : Nat
  status_counter : List (Nat × Nat)

/-- The aggregator state at process start: zero requests, empty counter. -/
def initAgg : AggState := ⟨0, []⟩

/-- Models `status_counter[code] += 1` on a `Counter`: an existing key is
incremented in place, a missing key is appended with count 1. -/
def counterIncr (ctr : List (Nat × Nat)) (code : Nat) : List (Nat × Nat) :=
  if ctr.any (fun p => decide (p.1 = code)) then
    ctr.map (fun p => if p.1 = code then (p.1, p.2 + 1) else p)
  else ctr ++ [(code, 1)]

/-- The count recorded for a status code (0 when absent), like
`Counter[code]`. -/
def counterGet : List (Nat × Nat) → Nat → Nat
  | [], _ => 0
  | p :: tl, code => if p.1 = code then p.2 else counterGet tl code

/-- Models the f-string rendering `f"{dict(status_counter)}"` of line 110:
the Python `str()` of an int-keyed dict. -/
def pyDictRepr (ctr : List (Nat × Nat)) : String :=
  String.mk (lbrace ::
    List.intercalate [',', ' '] (ctr.map (fun p => natChars p.1 ++ ':' :: ' ' :: natChars p.2))
    ++ [rbrace])

/-- A synchronous log emission: either a serialized-dict record
(`logging.error(json.dumps(...))`, kept as its JSON value) or a plain text
line (`logging.info(f"...")`). -/
inductive LogMsg where
  | record (level : Nat) (rec : Json)
  | text (level : Nat) (msg : String)

/-- The status aggregation of lines 107-111: increment the total counter and
the status entry; when the total reaches a multiple of 100, emit the INFO
summary containing the current mapping and clear the mapping. -/
def aggregate_step (st : AggState) (status_code : Nat) : AggState × List LogMsg :=
  let request_count := st.request_count + 1
  let ctr := counterIncr st.status_counter status_code
  if request_count % 100 = 0 then
    (⟨request_count, []⟩, [.text LOG_INFO ("Status Summary: " ++ pyDictRepr ctr)])
  else (⟨request_count, ctr⟩, [])

/-- The aggregator state after a sequence of logged status codes. -/
def aggregate_run (st : AggState) (l : List Nat) : AggState :=
  l.foldl (fun a s => (aggregate_step a s).1) st

/-- Everything a completed `dispatch` call produced: the response returned to
the caller, the synchronously emitted log lines (error record, periodic
summary), the records submitted to the async executor (the code submits
`json.dumps(log_details)`; the model keeps the JSON value it serializes,
paired with the log level), and the updated aggregator state. -/
structure DispatchOutcome where
  response : Response
  sync_logs : List LogMsg
  submitted : List (Json × Nat)
  agg : AggState

/-- Models `EnhancedLoggingMiddleware.dispatch` (lines 51-116) as a pure
function.  Runtime inputs are explicit: the sampling rate and latency
threshold (environment floats of lines 28 and 30), the hostname (line 21),
the aggregator state, the fresh `str(uuid.uuid4())`, the `random.random()`
draw, the `time.time()` readings (start, end-of-processing, record
timestamp) and the downstream continuation.  The first component of the
result is the correlation id attached to `request.state` before the gate
decision; the second is the outcome, or the exception the call raises
(a downstream exception on the skip path, or `UnicodeDecodeError` from
response decoding). -/
def dispatch (LOG_SAMPLE_RATE LATENCY_THRESHOLD : ℚ) (hostname : String)
    (st : AggState) (request : Request) (uuid4 : String)
    (rand t_start t_end t_event : ℚ)
    (call_next : Request → Except PyExn Response) :
    String × Except Raised DispatchOutcome :=
  let correlation_id := uuid4
  (correlation_id,
    if request.path ∈ EXCLUDED_PATHS ∨ rand > LOG_SAMPLE_RATE then
      match call_next request with
      | .error e => .error (.exn e)
      | .ok response => .ok ⟨response, [], [], st⟩
    else
      match call_next request with
      | .error e =>
        .ok ⟨JSONResponse internalServerErrorBody 500,
             [.record LOG_ERROR (build_error_log request correlation_id t_event e)],
             [], st⟩
      | .ok response =>
        let process_time := t_end - t_start
        let log_level := determine_log_level LATENCY_THRESHOLD response.status_code process_time
        match get_response_content response with
        | .error r => .error r
        | .ok (content, response2) =>
          let log_details := build_log_details hostname request correlation_id t_event
            response2.status_code content process_time
          let (agg2, summary_logs) := aggregate_step st response2.status_code
          .ok ⟨response2, summary_logs, [(log_details, log_level)], agg2⟩)

/-- How many records a dispatch outcome submitted to the async executor. -/
def submittedCount : Except Raised DispatchOutcome → Nat
  | .ok o => o.submitted.length
  | .error _ => 0

/-- How many per-request log records an outcome produced: async submissions
plus synchronous dict records (the periodic summary is a text line, not a
per-request record). -/
def recordCount (o : DispatchOutcome) : Nat :=
  o.submitted.length +
    (o.sync_logs.countP fun lm => match lm with | .record _ _ => true | .text _ _ => false)

/-- The correlation identifier carried by a log record: the top-level
`correlation_id` field if present, else the one nested under `metadata`. -/
def recordCorrId (rec : Json) : Option Json :=
  match jfind rec "correlation_id" with
  | some v => some v
  | none => (jfind rec "metadata").bind (fun m => jfind m "correlation_id")

/-- Whether a value is exactly the mask token. -/
def isMask : Json → Bool
  | .str s => s == "*****"
  | _ => false

mutual
/-- Every sensitive key reachable through object values (the only values the
redactor recurses into) holds the mask token. -/
def isRedacted : Json → Bool
  | .obj kvs => isRedactedItems kvs
  | _ => true
/-- Member-wise check for `isRedacted`. -/
def isRedactedItems : JsonObj → Bool
  | .nil => true
  | .cons k v tl =>
    (if SENSITIVE_FIELDS.contains (pyLower k) then isMask v else isRedacted v)
      && isRedactedItems tl
end

/-- A plain non-excluded GET request fixture. -/
def plainReq : Request :=
  ⟨"GET", "/items", [("Authorization", "s3cret")], [("password", "hunter2")], "", "1.2.3.4"⟩

/-- A response fixture with no content-type header. -/
def plainResp : Response := ⟨200, [], []⟩

/-- A request fixture whose query string carries sensitive field names. -/
def sensReq : Request :=
  ⟨"GET", "/q", [], [("password", "hunter2"), ("token", "tok")], "", "9.9.9.9"⟩

/-- A loggable response whose single body byte is not valid UTF-8
(latin-1 `ÿ`). -/
def latin1Resp : Response :=
  ⟨200, [("content-type", "text/plain; charset=latin-1")], [[255]]⟩

/-- A loggable two-chunk ASCII response fixture. -/
def asciiResp : Response := ⟨200, [("Content-Type", "application/json")], [[104, 105], [33]]⟩

/-- A 1001-byte JSON body: 200 two-letter strings in a compact array. -/
def bigBody1001 : String :=
  "[" ++ String.mk (List.intercalate [','] (List.replicate 200 "\"aa\"".data)) ++ "]"

/-- The value `json.loads` gives for `bigBody1001`. -/
def bigJson : Json := .arr (arrOfList (List.replicate 200 (.str "aa")))

theorem aggregate_step_count (st : AggState) (s : Nat) :
    (aggregate_step st s).1.request_count = st.request_count + 1 := by
  by_cases h : (st.request_count + 1) % 100 = 0 <;> simp [aggregate_step, h]

theorem aggregate_run_count : ∀ (l : List Nat) (st : AggState),
    (aggregate_run st l).request_count = st.request_count + l.length
  | [], _ => rfl
  | s :: tl, st => by
    show (aggregate_run (aggregate_step st s).1 tl).request_count = _
    rw [aggregate_run_count tl, aggregate_step_count]
    simp [Nat.add_assoc, Nat.add_comm 1]

theorem counterGet_incr : ∀ (ctr : List (Nat × Nat)) (s : Nat),
    counterGet (counterIncr ctr s) s = counterGet ctr s + 1
  | [], s => by simp [counterIncr, counterGet]
  | p :: tl, s => by
    have ih := counterGet_incr tl s
    by_cases hp : p.1 = s
    · simp [counterIncr, counterGet, List.any_cons, hp]
    · by_cases ht : tl.any (fun q => decide (q.1 = s)) = true
      · have h1 : counterIncr (p :: tl) s
            = p :: tl.map (fun q => if q.1 = s then (q.1, q.2 + 1) else q) := by
          simp [counterIncr, List.any_cons, hp, ht]
        have h2 : counterIncr tl s
            = tl.map (fun q => if q.1 = s then (q.1, q.2 + 1) else q) := by
          simp [counterIncr, ht]
        rw [h1]
        simp only [counterGet, if_neg hp]
        rw [← h2, ih]
      · have ht2 : tl.any (fun q => decide (q.1 = s)) = false := Bool.eq_false_iff.mpr ht
        have h1 : counterIncr (p :: tl) s = p :: (tl ++ [(s, 1)]) := by
          simp [counterIncr, List.any_cons, hp, ht2]
        have h2 : counterIncr tl s = tl ++ [(s, 1)] := by
          simp [counterIncr, ht2]
        rw [h1]
        simp only [counterGet, if_neg hp]
        rw [← h2, ih]

theorem counterIncr_ne_nil (ctr : List (Nat × Nat)) (s : Nat) :
    counterIncr ctr s ≠ [] := by
  unfold counterIncr
  split
  · intro h
    rcases ctr with _ | ⟨p, tl⟩
    · simp_all
    · simp at h
  · simp

/-- C5: on every logged response the aggregator increments the entry for that
status code and the total counter; the total is monotonically non-decreasing
and never reset; the mapping is cleared exactly when the total becomes a
multiple of 100, immediately after one INFO summary containing the current
mapping; after 100 logged requests the mapping is empty and the 101st starts
a fresh count from 1. -/
theorem C5_status_aggregator :
    (∀ (st : AggState) (s : Nat),
      (aggregate_step st s).1.request_count = st.request_count + 1) ∧
    (∀ (ctr : List (Nat × Nat)) (s : Nat),
      counterGet (counterIncr ctr s) s = counterGet ctr s + 1) ∧
    (∀ (ctr : List (Nat × Nat)) (s : Nat), counterIncr ctr s ≠ []) ∧
    (∀ (st : AggState) (s : Nat), (st.request_count + 1) % 100 ≠ 0 →
      (aggregate_step st s).1.status_counter = counterIncr st.status_counter s ∧
      (aggregate_step st s).2 = []) ∧
    (∀ (st : AggState) (s : Nat), (st.request_count + 1) % 100 = 0 →
      (aggregate_step st s).1.status_counter = [] ∧
      (aggregate_step st s).2 =
        [.text LOG_INFO ("Status Summary: " ++ pyDictRepr (counterIncr st.status_counter s))]) ∧
    (∀ (st : AggState) (l : List Nat),
      (aggregate_run st l).request_count = st.request_count + l.length) ∧
    (∀ (l : List Nat) (s : Nat), l.length = 99 →
      (aggregate_run initAgg (l ++ [s])).request_count = 100 ∧
      (aggregate_run initAgg (l ++ [s])).status_counter = [] ∧
      ∀ s2 : Nat,
        (aggregate_step (aggregate_run initAgg (l ++ [s])) s2).1.status_counter = [(s2, 1)]) := by
  have hstep_lo : ∀ (st : AggState) (s : Nat), (st.request_count + 1) % 100 ≠ 0 →
      (aggregate_step st s).1.status_counter = counterIncr st.status_counter s ∧
      (aggregate_step st s).2 = [] := by
    intro st s h
    constructor <;> simp [aggregate_step, h]
  have hstep_hi : ∀ (st : AggState) (s : Nat), (st.request_count + 1) % 100 = 0 →
      (aggregate_step st s).1.status_counter = [] ∧
      (aggregate_step st s).2 =
        [.text LOG_INFO ("Status Summary: " ++ pyDictRepr (counterIncr st.status_counter s))] := by
    intro st s h
    constructor <;> simp [aggregate_step, h]
  refine ⟨aggregate_step_count, counterGet_incr, counterIncr_ne_nil, hstep_lo, hstep_hi,
    fun st l => aggregate_run_count l st, ?_⟩
  intro l s hl
  have hsplit : aggregate_run initAgg (l ++ [s])
      = (aggregate_step (aggregate_run initAgg l) s).1 := by
    simp [aggregate_run, List.foldl_append]
  have hcount99 : (aggregate_run initAgg l).request_count = 99 := by
    rw [aggregate_run_count l initAgg, hl]
    rfl
  have hmul : ((aggregate_run initAgg l).request_count + 1) % 100 = 0 := by
    simp [hcount99]
  have hcount100 : (aggregate_run initAgg (l ++ [s])).request_count = 100 := by
    rw [aggregate_run_count (l ++ [s]) initAgg]
    simp [hl, initAgg]
  refine ⟨hcount100, ?_, ?_⟩
  · rw [hsplit]
    exact (hstep_hi _ s hmul).1
  · intro s2
    have hne : ((aggregate_run initAgg (l ++ [s])).request_count + 1) % 100 ≠ 0 := by
      rw [hcount100]
      decide
    have h1 := (hstep_lo _ s2 hne).1
    rw [h1, hsplit, (hstep_hi _ s hmul).1]
    rfl

/-- Witness for C5 at concrete inputs: 99 identical statuses followed by a
100th trigger the flush, and the 101st starts the mapping afresh. -/
theorem C5_status_aggregator_witness :
    (1 + 1) % 100 ≠ 0 ∧
    (aggregate_step ⟨1, [(200, 1)]⟩ 200).1.status_counter = counterIncr [(200, 1)] 200 ∧
    (99 + 1) % 100 = 0 ∧
    (aggregate_step ⟨99, [(200, 99)]⟩ 200).1.status_counter = [] ∧
    (List.replicate 99 200).length = 99 ∧
    (aggregate_run initAgg (List.replicate 99 200 ++ [200])).status_counter = [] ∧
    (aggregate_step (aggregate_run initAgg (List.replicate 99 200 ++ [200])) 404).1.status_counter
      = [(404, 1)] := by
  refine ⟨by decide, (C5_status_aggregator.2.2.2.1 ⟨1, [(200, 1)]⟩ 200 (by decide)).1,
    by decide, (C5_status_aggregator.2.2.2.2.1 ⟨99, [(200, 99)]⟩ 200 (by decide)).1,
    by simp, ?_, ?_⟩
  · exact (C5_status_aggregator.2.2.2.2.2.2 (List.replicate 99 200) 200 (by simp)).2.1
  · exact (C5_status_aggregator.2.2.2.2.2.2 (List.replicate 99 200) 200 (by simp)).2.2 404

/-- C3: the severity classifier is the pure function status ≥ 500 → ERROR,
else status ≥ 400 → WARNING (overriding latency), else latency over the
threshold → WARNING, else INFO; in particular 503 is ERROR at any latency,
404 at 0.1s is WARNING, 200 at 3.0s against threshold 2.0 is WARNING, and
200 at 0.1s is INFO. -/
theorem C3_severity_classifier :
    (∀ (thr lat : ℚ) (status : Nat), 500 ≤ status →
      determine_log_level thr status lat = LOG_ERROR) ∧
    (∀ (thr lat : ℚ) (status : Nat), 400 ≤ status → status < 500 →
      determine_log_level thr status lat = LOG_WARNING) ∧
    (∀ (thr lat : ℚ) (status : Nat), status < 400 → thr < lat →
      determine_log_level thr status lat = LOG_WARNING) ∧
    (∀ (thr lat : ℚ) (status : Nat), status < 400 → lat ≤ thr →
      determine_log_level thr status lat = LOG_INFO) ∧
    (∀ lat : ℚ, determine_log_level 2 503 lat = LOG_ERROR) ∧
    determine_log_level 2 404 (1 / 10) = LOG_WARNING ∧
    determine_log_level 2 200 3 = LOG_WARNING ∧
    determine_log_level 2 200 (1 / 10) = LOG_INFO := by
  refine ⟨?_, ?_, ?_, ?_, ?_, ?_, ?_, ?_⟩
  · intro thr lat status h
    unfold determine_log_level
    rw [if_pos h]
  · intro thr lat status h4 h5
    unfold determine_log_level
    rw [if_neg (by omega), if_pos h4]
  · intro thr lat status hs hlat
    unfold determine_log_level
    rw [if_neg (by omega), if_neg (by omega), if_pos hlat]
  · intro thr lat status hs hlat
    unfold determine_log_level
    rw [if_neg (by omega), if_neg (by omega), if_neg (not_lt.mpr hlat)]
  · intro lat
    unfold determine_log_level
    rw [if_pos (by norm_num)]
  · norm_num [determine_log_level]
  · norm_num [determine_log_level]
  · norm_num [determine_log_level]

/-- Witness for C3: the four hypothesis-bearing clauses applied at 503, 404,
and 200 with integral latencies. -/
theorem C3_severity_classifier_witness :
    500 ≤ 503 ∧ determine_log_level 1 503 0 = LOG_ERROR ∧
    400 ≤ 404 ∧ 404 < 500 ∧ determine_log_level 1 404 0 = LOG_WARNING ∧
    200 < 400 ∧ (1 : ℚ) < 2 ∧ determine_log_level 1 200 2 = LOG_WARNING ∧
    (0 : ℚ) ≤ 1 ∧ determine_log_level 1 200 0 = LOG_INFO :=
  ⟨by decide, C3_severity_classifier.1 1 0 503 (by decide),
   by decide, by decide, C3_severity_classifier.2.1 1 0 404 (by decide) (by decide),
   by decide, by decide, C3_severity_classifier.2.2.1 1 2 200 (by decide) (by decide),
   by decide, C3_severity_classifier.2.2.2.1 1 0 200 (by decide) (by decide)⟩

mutual
theorem mask_idem : ∀ j, mask_sensitive_data (mask_sensitive_data j) = mask_sensitive_data j
  | .null => rfl
  | .bool _ => rfl
  | .num _ => rfl
  | .str _ => rfl
  | .arr _ => rfl
  | .obj kvs => congrArg Json.obj (maskItems_idem kvs)
theorem maskItems_idem : ∀ kvs, maskItems (maskItems kvs) = maskItems kvs
  | .nil => rfl
  | .cons k v tl => by
    by_cases hm : pyLower k ∈ SENSITIVE_FIELDS
    · simp [maskItems, hm, maskItems_idem tl]
    · simp [maskItems, hm, mask_idem v, maskItems_idem tl]
end

mutual
theorem isRedacted_mask : ∀ j, isRedacted (mask_sensitive_data j) = true
  | .null => rfl
  | .bool _ => rfl
  | .num _ => rfl
  | .str _ => rfl
  | .arr _ => rfl
  | .obj kvs => isRedactedItems_mask kvs
theorem isRedactedItems_mask : ∀ kvs, isRedactedItems (maskItems kvs) = true
  | .nil => rfl
  | .cons k v tl => by
    by_cases hm : pyLower k ∈ SENSITIVE_FIELDS
    · simp [maskItems, isRedactedItems, hm, isMask, isRedactedItems_mask tl]
    · simp [maskItems, isRedactedItems, hm, isRedacted_mask v, isRedactedItems_mask tl]
end

theorem maskItems_keys : ∀ kvs : JsonObj, (maskItems kvs).keys = kvs.keys
  | .nil => rfl
  | .cons k v tl => by simp [maskItems, JsonObj.keys, maskItems_keys tl]

theorem maskItems_lookup : ∀ (kvs : JsonObj) (k : String) (v : Json),
    kvs.lookupKey k = some v →
    (maskItems kvs).lookupKey k =
      some (if SENSITIVE_FIELDS.contains (pyLower k) then Json.str "*****"
            else mask_sensitive_data v)
  | .nil, k, v => by
    intro h
    simp [JsonObj.lookupKey] at h
  | .cons k0 v0 tl, k, v => by
    intro h
    by_cases hk : (k0 == k) = true
    · have he : k0 = k := eq_of_beq hk
      subst he
      simp only [JsonObj.lookupKey, beq_self_eq_true, if_pos] at h
      obtain rfl : v0 = v := by injection h
      by_cases hm : pyLower k0 ∈ SENSITIVE_FIELDS
      · simp [maskItems, JsonObj.lookupKey, hm]
      · simp [maskItems, JsonObj.lookupKey, hm]
    · have hk2 : (k0 == k) = false := Bool.eq_false_iff.mpr hk
      simp only [JsonObj.lookupKey, hk2, Bool.false_eq_true, if_false] at h
      simp only [maskItems, JsonObj.lookupKey, hk2, Bool.false_eq_true, if_false]
      exact maskItems_lookup tl k v h

/-- C7: redaction replaces the value of every object key whose lowercase form
is a sensitive-field name with the mask token wherever the redactor recurses
(object values at any depth), preserves keys, leaves arrays and scalars
unchanged, and is idempotent. -/
theorem C7_redaction :
    (∀ j, mask_sensitive_data (mask_sensitive_data j) = mask_sensitive_data j) ∧
    (∀ j, isRedacted (mask_sensitive_data j) = true) ∧
    (∀ kvs : JsonObj, (maskItems kvs).keys = kvs.keys) ∧
    (∀ (kvs : JsonObj) (k : String) (v : Json), kvs.lookupKey k = some v →
      (maskItems kvs).lookupKey k =
        some (if SENSITIVE_FIELDS.contains (pyLower k) then Json.str "*****"
              else mask_sensitive_data v)) ∧
    (∀ kvs, mask_sensitive_data (Json.obj kvs) = Json.obj (maskItems kvs)) ∧
    (∀ xs, mask_sensitive_data (Json.arr xs) = Json.arr xs) ∧
    (∀ s, mask_sensitive_data (Json.str s) = Json.str s) ∧
    (∀ q, mask_sensitive_data (Json.num q) = Json.num q) ∧
    (∀ b, mask_sensitive_data (Json.bool b) = Json.bool b) ∧
    mask_sensitive_data Json.null = Json.null :=
  ⟨mask_idem, isRedacted_mask, maskItems_keys, maskItems_lookup,
   fun _ => rfl, fun _ => rfl, fun _ => rfl, fun _ => rfl, fun _ => rfl, rfl⟩

/-- Witness for C7: the lookup clause applied to a concrete object holding a
mixed-case sensitive key. -/
theorem C7_redaction_witness :
    (objOfList [("Password", Json.num 5), ("x", Json.str "y")]).lookupKey "Password"
      = some (Json.num 5) ∧
    (maskItems (objOfList [("Password", Json.num 5), ("x", Json.str "y")])).lookupKey "Password"
      = some (if SENSITIVE_FIELDS.contains (pyLower "Password") then Json.str "*****"
              else mask_sensitive_data (Json.num 5)) :=
  ⟨rfl, C7_redaction.2.2.2.1 _ "Password" _ rfl⟩

theorem natDigitsF_ne_nil (fuel n : Nat) : natDigitsF (fuel + 1) n ≠ [] := by
  unfold natDigitsF
  split
  · simp
  · simp

theorem natDigitsF_head_digit : ∀ (fuel n : Nat) (c : Char) (rest : List Char),
    natDigitsF (fuel + 1) n = c :: rest → 48 ≤ c.toNat ∧ c.toNat ≤ 57
  | 0, n, c, rest => by
    intro h
    unfold natDigitsF at h
    split at h
    · rename_i hn
      obtain ⟨rfl, -⟩ := List.cons.inj h
      interval_cases n <;> decide
    · simp only [natDigitsF, List.nil_append] at h
      obtain ⟨rfl, -⟩ := List.cons.inj h
      have hm : n % 10 < 10 := Nat.mod_lt _ (by decide)
      set m := n % 10 with hmdef
      interval_cases m <;> decide
  | fuel + 1, n, c, rest => by
    intro h
    unfold natDigitsF at h
    split at h
    · rename_i hn
      obtain ⟨rfl, -⟩ := List.cons.inj h
      interval_cases n <;> decide
    · cases hx : natDigitsF (fuel + 1) (n / 10) with
      | nil => exact absurd hx (natDigitsF_ne_nil fuel (n / 10))
      | cons c0 r0 =>
        rw [hx, List.cons_append] at h
        obtain ⟨rfl, -⟩ := List.cons.inj h
        exact natDigitsF_head_digit fuel (n / 10) c0 r0 hx

theorem natChars_head_digit (n : Nat) (c : Char) (rest : List Char)
    (h : natChars n = c :: rest) : 48 ≤ c.toNat ∧ c.toNat ≤ 57 :=
  natDigitsF_head_digit n n c rest h

theorem dumps_head_ne_B : ∀ (j : Json) (c : Char) (rest : List Char),
    dumpsWith true (", ".data) (": ".data) j = c :: rest → c ≠ 'B' := by
  have hdig : ∀ c : Char, 48 ≤ c.toNat ∧ c.toNat ≤ 57 → c ≠ 'B' := by
    intro c hc he
    subst he
    exact absurd hc (by decide)
  have hnum : ∀ (q : ℚ) (c : Char) (rest : List Char),
      dumpNum q = c :: rest → c ≠ 'B' := by
    intro q c rest h
    unfold dumpNum at h
    split at h
    · unfold intChars at h
      split at h
      · obtain ⟨rfl, -⟩ := List.cons.inj h
        decide
      · exact hdig c (natChars_head_digit _ c _ h)
    · split at h
      · obtain ⟨rfl, -⟩ := List.cons.inj h
        decide
      · cases hx : natChars (q.floor.toNat) with
        | nil => exact absurd hx (natDigitsF_ne_nil _ _)
        | cons c0 r0 =>
          rw [hx, List.cons_append] at h
          obtain ⟨rfl, -⟩ := List.cons.inj h
          exact hdig c0 (natChars_head_digit _ c0 r0 hx)
  intro j c rest h
  cases j with
  | null =>
    obtain ⟨rfl, -⟩ := List.cons.inj h
    decide
  | bool b =>
    cases b <;>
      (obtain ⟨rfl, -⟩ := List.cons.inj h; decide)
  | num q => exact hnum q c rest h
  | str s =>
    obtain ⟨rfl, -⟩ := List.cons.inj h
    decide
  | arr xs =>
    cases xs <;>
      (obtain ⟨rfl, -⟩ := List.cons.inj h; decide)
  | obj kvs =>
    cases kvs <;>
      (obtain ⟨rfl, -⟩ := List.cons.inj h; decide)

theorem truncated_dumps_ne_sentinel (j : Json) :
    pyTake (json_dumps j) MAX_BODY_SIZE ≠ "Body too large to log" := by
  intro h
  have hd : (dumpsWith true (", ".data) (": ".data) j).take 1024
      = "Body too large to log".data := congrArg String.data h
  cases hx : dumpsWith true (", ".data) (": ".data) j with
  | nil =>
    rw [hx] at hd
    exact absurd hd.symm (by decide)
  | cons c0 r0 =>
    rw [hx, show (1024 : Nat) = 1023 + 1 from rfl, List.take_succ_cons,
      show "Body too large to log".data = 'B' :: "ody too large to log".data from rfl] at hd
    obtain ⟨hc, -⟩ := List.cons.inj hd
    exact dumps_head_ne_B j c0 r0 hx hc

/-- C2 (amended): request-body capture parses the body, applies the redactor
and re-serializes; but the size check is on the RAW body byte length, not on
the serialized redacted JSON: a raw body over 1024 bytes yields the
`Body too large to log` sentinel (and only such a body does), while a raw
body of at most 1024 bytes — 1024 exactly included — returns the serialized
redacted JSON truncated to 1024 characters, which may be an invalid prefix
when redaction or re-serialization grows the text past 1024. -/
theorem C2_request_body_size_check :
    ∀ (body : String) (j : Json), json_loads body = some j →
      (get_request_body body = "Body too large to log" ↔ MAX_BODY_SIZE < utf8Len body) ∧
      (utf8Len body ≤ MAX_BODY_SIZE →
        get_request_body body = pyTake (json_dumps (mask_sensitive_data j)) MAX_BODY_SIZE) := by
  intro body j hj
  have hb : get_request_body body =
      if utf8Len body ≤ MAX_BODY_SIZE then pyTake (json_dumps (mask_sensitive_data j)) MAX_BODY_SIZE
      else "Body too large to log" := by
    simp only [get_request_body, hj]
  constructor
  · constructor
    · intro h
      by_contra hlt
      push_neg at hlt
      rw [hb, if_pos hlt] at h
      exact truncated_dumps_ne_sentinel _ h
    · intro h
      rw [hb, if_neg (by omega)]
  · intro h
    rw [hb, if_pos h]

/-- Witness for the amended C2 at a small JSON body. -/
theorem C2_request_body_size_check_witness :
    json_loads "[0]" = some (Json.arr (JsonArr.cons (Json.num 0) JsonArr.nil)) ∧
    utf8Len "[0]" ≤ MAX_BODY_SIZE ∧
    get_request_body "[0]" =
      pyTake (json_dumps (mask_sensitive_data
        (Json.arr (JsonArr.cons (Json.num 0) JsonArr.nil)))) MAX_BODY_SIZE :=
  ⟨rfl, by decide,
   (C2_request_body_size_check "[0]" (Json.arr (JsonArr.cons (Json.num 0) JsonArr.nil)) rfl).2
     (by decide)⟩

/-- C2 counterexample: `bigBody1001` is a 1001-byte compact JSON array whose
redacted re-serialization is 1200 bytes (over the 1024 maximum), yet
`get_request_body` does not return the sentinel: it returns the truncated
1024-character prefix of the redacted JSON, contradicting the claim that the
sentinel is returned whenever the serialized redacted JSON exceeds the
maximum and that no truncated prefix is ever emitted. -/
theorem C2_request_body_counterexample :
    json_loads bigBody1001 = some bigJson ∧
    utf8Len bigBody1001 = 1001 ∧
    1024 < utf8Len (json_dumps (mask_sensitive_data bigJson)) ∧
    get_request_body bigBody1001 = pyTake (json_dumps (mask_sensitive_data bigJson)) 1024 ∧
    get_request_body bigBody1001 ≠ "Body too large to log" :=
  ⟨rfl, by decide, by decide, rfl, by decide⟩

/-- C1: for a loggable content type, response capture drains the whole body
stream and replaces it with the single-chunk stream of exactly the drained
bytes (headers and status untouched), and a non-loggable response passes
through untouched with the skip sentinel; BUT the subsequent
`response_body.decode()` of line 144 is outside every `try` block, so a
loggable body of at most 1024 bytes that is not valid UTF-8 (here: the
single latin-1 byte `0xFF` under `text/plain; charset=latin-1`) raises
`UnicodeDecodeError` out of the middleware instead of returning the
response — the caller then does not receive the drained bytes. -/
theorem C1_response_stream_reconstruction :
    (∀ (response : Response) (content : String) (response2 : Response),
      get_response_content response = .ok (content, response2) →
      (isLoggable response = true →
        response2.body_iterator = [response.body_iterator.flatten] ∧
        response2.body_iterator.flatten = response.body_iterator.flatten ∧
        response2.status_code = response.status_code ∧
        response2.headers = response.headers) ∧
      (isLoggable response = false →
        response2 = response ∧ content = "Skipped logging due to content type")) ∧
    isLoggable latin1Resp = true ∧
    latin1Resp.body_iterator.flatten.length ≤ MAX_BODY_SIZE ∧
    get_response_content latin1Resp = .error .unicodeDecodeError := by
  refine ⟨?_, rfl, by decide, rfl⟩
  intro response content response2 h
  constructor
  · intro hl
    unfold get_response_content at h
    simp only [hl, if_true] at h
    split at h
    · split at h
      · injection h with h0
        obtain ⟨h1, h2⟩ := Prod.mk.inj h0
        subst h2
        refine ⟨rfl, by simp, rfl, rfl⟩
      · exact Except.noConfusion h
    · injection h with h0
      obtain ⟨h1, h2⟩ := Prod.mk.inj h0
      subst h2
      refine ⟨rfl, by simp, rfl, rfl⟩
  · intro hl
    unfold get_response_content at h
    simp only [hl, Bool.false_eq_true, if_false] at h
    injection h with h0
    obtain ⟨h1, h2⟩ := Prod.mk.inj h0
    subst h2
    exact ⟨rfl, h1.symm⟩

/-- Witness for C1: a loggable two-chunk ASCII response is drained and
replaced by its single-chunk concatenation, and a response without a
content-type header passes through untouched. -/
theorem C1_response_stream_reconstruction_witness :
    get_response_content asciiResp
      = .ok ("hi!", ⟨200, [("Content-Type", "application/json")], [[104, 105, 33]]⟩) ∧
    isLoggable asciiResp = true ∧
    (⟨200, [("Content-Type", "application/json")], [[104, 105, 33]]⟩ : Response).body_iterator
      = [asciiResp.body_iterator.flatten] ∧
    get_response_content plainResp = .ok ("Skipped logging due to content type", plainResp) ∧
    isLoggable plainResp = false := by
  refine ⟨rfl, rfl, ?_, rfl, rfl⟩
  exact ((C1_response_stream_reconstruction.1 asciiResp "hi!"
    ⟨200, [("Content-Type", "application/json")], [[104, 105, 33]]⟩ rfl).1 rfl).1

/-- C4: an instrumented request whose downstream continuation raises is
answered by exactly one synchronous ERROR record carrying the exception
message, a non-empty stack trace, the method, path, client IP and
correlation id, nothing is submitted to the async executor, the aggregator
is untouched, and the caller receives a 500 whose body is exactly the
compact serialization of the object with single member `detail` mapped to
`Internal Server Error` — the exception itself is swallowed. -/
theorem C4_error_path :
    ∀ (rate thr : ℚ) (host : String) (st : AggState) (req : Request) (u : String)
      (r t0 t1 t2 : ℚ) (e : PyExn),
      req.path ∉ EXCLUDED_PATHS → r ≤ rate →
      dispatch rate thr host st req u r t0 t1 t2 (fun _ => .error e) =
        (u, .ok ⟨JSONResponse internalServerErrorBody 500,
                 [.record LOG_ERROR (build_error_log req u t2 e)], [], st⟩) ∧
      jfind (build_error_log req u t2 e) "error" = some (.str e.msg) ∧
      jfind (build_error_log req u t2 e) "traceback" = some (.str (format_exc e)) ∧
      format_exc e ≠ "" ∧
      jfind (build_error_log req u t2 e) "method" = some (.str req.method) ∧
      jfind (build_error_log req u t2 e) "url" = some (.str req.path) ∧
      jfind (build_error_log req u t2 e) "client_ip" = some (.str req.client_host) ∧
      jfind (build_error_log req u t2 e) "correlation_id" = some (.str u) ∧
      (JSONResponse internalServerErrorBody 500).status_code = 500 ∧
      (JSONResponse internalServerErrorBody 500).body_iterator
        = [utf8Encode "\x7b\"detail\":\"Internal Server Error\"\x7d"] := by
  intro rate thr host st req u r t0 t1 t2 e hpath hr
  have hgate : ¬(req.path ∈ EXCLUDED_PATHS ∨ r > rate) := by
    push_neg
    exact ⟨hpath, hr⟩
  refine ⟨?_, rfl, rfl, ?_, rfl, rfl, rfl, rfl, rfl, rfl⟩
  · simp only [dispatch, if_neg hgate]
  · intro hemp
    have hlen := congrArg String.length hemp
    simp only [format_exc] at hlen
    rw [String.length_append, String.length_append,
      show ("Traceback (most recent call last):").length = 34 from rfl,
      show (String.mk [chr 10]).length = 1 from rfl,
      show ("" : String).length = 0 from rfl] at hlen
    omega

/-- Witness for C4 at a concrete request and the exception message `boom`. -/
theorem C4_error_path_witness :
    plainReq.path ∉ EXCLUDED_PATHS ∧ (0 : ℚ) ≤ 1 ∧
    dispatch 1 2 "h" initAgg plainReq "cid" 0 0 0 0 (fun _ => .error ⟨"boom"⟩) =
      ("cid", .ok ⟨JSONResponse internalServerErrorBody 500,
        [.record LOG_ERROR (build_error_log plainReq "cid" 0 ⟨"boom"⟩)], [], initAgg⟩) ∧
    format_exc ⟨"boom"⟩ ≠ "" := by
  refine ⟨by decide, by decide, ?_, ?_⟩
  · exact (C4_error_path 1 2 "h" initAgg plainReq "cid" 0 0 0 0 ⟨"boom"⟩
      (by decide) (by decide)).1
  · exact (C4_error_path 1 2 "h" initAgg plainReq "cid" 0 0 0 0 ⟨"boom"⟩
      (by decide) (by decide)).2.2.2.1

theorem aggregate_step_no_record (st : AggState) (s : Nat) :
    ((aggregate_step st s).2.countP fun lm => match lm with
      | .record _ _ => true | .text _ _ => false) = 0 := by
  by_cases h : (st.request_count + 1) % 100 = 0 <;>
    simp [aggregate_step, h, List.countP_cons, List.countP_nil]

theorem aggregate_step_record_not_mem (st : AggState) (s : Nat) (lvl : Nat) (rec : Json) :
    LogMsg.record lvl rec ∉ (aggregate_step st s).2 := by
  by_cases h : (st.request_count + 1) % 100 = 0 <;> simp [aggregate_step, h]

/-- C6 (amended): the gate skips instrumentation (downstream is called, no
log record is produced, the aggregator is untouched) exactly when the path
is excluded or the uniform draw exceeds the sampling rate.  With rate 0.0,
no record is submitted for any draw strictly greater than 0 — but a draw of
exactly 0.0, which `random.random()` can produce, still instruments the
request.  With rate 1.0 every non-excluded request that completes the hook
produces exactly one per-request record. -/
theorem C6_sampling_gate :
    ∀ (rate thr : ℚ) (host : String) (st : AggState) (req : Request) (u : String)
      (r t0 t1 t2 : ℚ) (cn : Request → Except PyExn Response),
      ((req.path ∈ EXCLUDED_PATHS ∨ rate < r) →
        (dispatch rate thr host st req u r t0 t1 t2 cn).2 =
          (match cn req with
           | .error e => .error (.exn e)
           | .ok resp => .ok ⟨resp, [], [], st⟩)) ∧
      (rate = 0 → 0 < r →
        submittedCount (dispatch rate thr host st req u r t0 t1 t2 cn).2 = 0) ∧
      (req.path ∉ EXCLUDED_PATHS → r ≤ rate →
        ∀ o, (dispatch rate thr host st req u r t0 t1 t2 cn).2 = .ok o →
          recordCount o = 1) ∧
      (rate = 1 → req.path ∉ EXCLUDED_PATHS → 0 ≤ r → r < 1 →
        ∀ o, (dispatch rate thr host st req u r t0 t1 t2 cn).2 = .ok o →
          recordCount o = 1) := by
  intro rate thr host st req u r t0 t1 t2 cn
  have hskip : (req.path ∈ EXCLUDED_PATHS ∨ rate < r) →
      (dispatch rate thr host st req u r t0 t1 t2 cn).2 =
        (match cn req with
         | .error e => .error (.exn e)
         | .ok resp => .ok ⟨resp, [], [], st⟩) := by
    intro hgate
    simp only [dispatch, if_pos hgate]
  have hinstr : req.path ∉ EXCLUDED_PATHS → r ≤ rate →
      ∀ o, (dispatch rate thr host st req u r t0 t1 t2 cn).2 = .ok o →
        recordCount o = 1 := by
    intro hpath hr o ho
    have hgate : ¬(req.path ∈ EXCLUDED_PATHS ∨ r > rate) := by
      push_neg
      exact ⟨hpath, hr⟩
    simp only [dispatch, if_neg hgate] at ho
    cases hcn : cn req with
    | error e =>
      simp only [hcn] at ho
      injection ho with ho2
      subst ho2
      rfl
    | ok resp =>
      simp only [hcn] at ho
      cases hg : get_response_content resp with
      | error rr =>
        simp only [hg] at ho
        exact Except.noConfusion ho
      | ok pr =>
        obtain ⟨content, response2⟩ := pr
        simp only [hg] at ho
        rcases hagg : aggregate_step st response2.status_code with ⟨agg2, slogs⟩
        simp only [hagg] at ho
        injection ho with ho2
        subst ho2
        have hnr : (slogs.countP fun lm => match lm with
            | .record _ _ => true | .text _ _ => false) = 0 := by
          have h0 := aggregate_step_no_record st response2.status_code
          rw [hagg] at h0
          exact h0
        simp [recordCount, hnr]
  refine ⟨hskip, ?_, hinstr, ?_⟩
  · intro h0 hr
    rw [hskip (Or.inr (by rw [h0]; exact hr))]
    cases hcn : cn req <;> rfl
  · intro h1 hpath h0r hr1 o ho
    exact hinstr hpath (by rw [h1]; exact le_of_lt hr1) o ho

/-- C6 counterexample: with sampling rate 0.0 and the possible draw
`random.random() = 0.0` (a value in the draw range `[0, 1)`), a non-excluded
request IS instrumented — the skip test `0.0 > 0.0` is false — and one
record is submitted to the dispatcher, so the claim that rate 0.0 never
submits a record for any possible draw fails. -/
theorem C6_sampling_gate_counterexample :
    (0 : ℚ) ≤ 0 ∧ (0 : ℚ) < 1 ∧ plainReq.path ∉ EXCLUDED_PATHS ∧
    submittedCount (dispatch 0 2 "h" initAgg plainReq "cid" 0 0 0 0
      (fun _ => .ok plainResp)).2 = 1 :=
  ⟨le_refl 0, by decide, by decide, rfl⟩

/-- Witness for C6: the skip clause at the excluded path `/health` and the
instrumented clause at a plain request under rate 1. -/
theorem C6_sampling_gate_witness :
    (("/health" : String) ∈ EXCLUDED_PATHS ∨ (1 : ℚ) < 0) ∧
    (dispatch 1 2 "h" initAgg ⟨"GET", "/health", [], [], "", "ip"⟩ "cid" 0 0 0 0
      (fun _ => .ok plainResp)).2 = .ok ⟨plainResp, [], [], initAgg⟩ ∧
    plainReq.path ∉ EXCLUDED_PATHS ∧ (0 : ℚ) ≤ 1 ∧
    recordCount ⟨plainResp, [],
      [(build_log_details "h" plainReq "cid" 0 plainResp.status_code
        "Skipped logging due to content type" (0 - 0),
        determine_log_level 2 plainResp.status_code (0 - 0))],
      ⟨1, [(200, 1)]⟩⟩ = 1 := by
  refine ⟨Or.inl (by decide), ?_, by decide, by decide, ?_⟩
  · have h := (C6_sampling_gate 1 2 "h" initAgg ⟨"GET", "/health", [], [], "", "ip"⟩
      "cid" 0 0 0 0 (fun _ => .ok plainResp)).1 (Or.inl (by decide))
    rw [h]
  · exact (C6_sampling_gate 1 2 "h" initAgg plainReq "cid" 0 0 0 0
      (fun _ => .ok plainResp)).2.2.1 (by decide) (by decide) _ rfl

/-- C8: the freshly generated correlation identifier is attached to the
request state unconditionally, before the sampling and exclusion decision,
and every record the request logs — the async-submitted success record (in
its `metadata`) and the synchronous error record (top level) — carries that
same identifier. -/
theorem C8_correlation_id :
    ∀ (rate thr : ℚ) (host : String) (st : AggState) (req : Request) (u : String)
      (r t0 t1 t2 : ℚ) (cn : Request → Except PyExn Response),
      (dispatch rate thr host st req u r t0 t1 t2 cn).1 = u ∧
      (∀ o, (dispatch rate thr host st req u r t0 t1 t2 cn).2 = .ok o →
        (∀ p, p ∈ o.submitted → recordCorrId p.1 = some (Json.str u)) ∧
        (∀ lvl rec, LogMsg.record lvl rec ∈ o.sync_logs →
          recordCorrId rec = some (Json.str u))) := by
  intro rate thr host st req u r t0 t1 t2 cn
  refine ⟨rfl, ?_⟩
  intro o ho
  by_cases hgate : req.path ∈ EXCLUDED_PATHS ∨ r > rate
  · simp only [dispatch, if_pos hgate] at ho
    cases hcn : cn req with
    | error e =>
      simp only [hcn] at ho
      exact Except.noConfusion ho
    | ok resp =>
      simp only [hcn] at ho
      injection ho with ho2
      subst ho2
      exact ⟨fun p hp => absurd hp (List.not_mem_nil p),
        fun lvl rec hmem => absurd hmem (List.not_mem_nil _)⟩
  · simp only [dispatch, if_neg hgate] at ho
    cases hcn : cn req with
    | error e =>
      simp only [hcn] at ho
      injection ho with ho2
      subst ho2
      refine ⟨fun p hp => absurd hp (List.not_mem_nil p), ?_⟩
      intro lvl rec hmem
      rw [List.mem_singleton] at hmem
      injection hmem with hlvl hrec
      subst hrec
      rfl
    | ok resp =>
      simp only [hcn] at ho
      cases hg : get_response_content resp with
      | error rr =>
        simp only [hg] at ho
        exact Except.noConfusion ho
      | ok pr =>
        obtain ⟨content, response2⟩ := pr
        simp only [hg] at ho
        rcases hagg : aggregate_step st response2.status_code with ⟨agg2, slogs⟩
        simp only [hagg] at ho
        injection ho with ho2
        subst ho2
        refine ⟨?_, ?_⟩
        · intro p hp
          rw [List.mem_singleton] at hp
          subst hp
          rfl
        · intro lvl rec hmem
          have h0 := aggregate_step_record_not_mem st response2.status_code lvl rec
          rw [hagg] at h0
          exact absurd hmem h0

/-- Witness for C8: a concrete failing request carries `cid` both in the
request state and in the synchronous error record. -/
theorem C8_correlation_id_witness :
    (dispatch 1 2 "h" initAgg plainReq "cid" 0 0 0 0 (fun _ => .error ⟨"boom"⟩)).1 = "cid" ∧
    recordCorrId (build_error_log plainReq "cid" 0 ⟨"boom"⟩) = some (Json.str "cid") := by
  have h := C8_correlation_id 1 2 "h" initAgg plainReq "cid" 0 0 0 0 (fun _ => .error ⟨"boom"⟩)
  refine ⟨h.1, ?_⟩
  have h2 := (h.2 ⟨JSONResponse internalServerErrorBody 500,
    [.record LOG_ERROR (build_error_log plainReq "cid" 0 ⟨"boom"⟩)], [], initAgg⟩ rfl).2
  exact h2 LOG_ERROR (build_error_log plainReq "cid" 0 ⟨"boom"⟩) (List.mem_singleton.mpr rfl)

/-- C9 (amended): the assembled success-path record has the shape
`event_type, event_timestamp, request(method, url, headers redacted,
query_params, body redacted/truncated), response(status_code, content,
latency), metadata(correlation_id, client_ip, hostname, app_version)`; the
correlation id lives inside `metadata`, and is NOT a top-level field of the
record. -/
theorem C9_record_shape :
    ∀ (host : String) (req : Request) (u : String) (tev : ℚ) (status : Nat)
      (content : String) (lat : ℚ),
      jkeys (build_log_details host req u tev status content lat)
        = ["event_type", "event_timestamp", "request", "response", "metadata"] ∧
      (jfind (build_log_details host req u tev status content lat) "request").map jkeys
        = some ["method", "url", "headers", "query_params", "body"] ∧
      (jfind (build_log_details host req u tev status content lat) "response").map jkeys
        = some ["status_code", "content", "latency"] ∧
      (jfind (build_log_details host req u tev status content lat) "metadata").map jkeys
        = some ["correlation_id", "client_ip", "hostname", "app_version"] ∧
      (jfind (build_log_details host req u tev status content lat) "request").bind
        (fun p => jfind p "headers") = some (strPairsToJson (redactHeaders req.headers)) ∧
      (jfind (build_log_details host req u tev status content lat) "request").bind
        (fun p => jfind p "body") = some (.str (get_request_body req.body)) ∧
      (jfind (build_log_details host req u tev status content lat) "response").bind
        (fun p => jfind p "status_code") = some (.num status) ∧
      (jfind (build_log_details host req u tev status content lat) "response").bind
        (fun p => jfind p "content") = some (.str content) ∧
      (jfind (build_log_details host req u tev status content lat) "response").bind
        (fun p => jfind p "latency") = some (.num lat) ∧
      (jfind (build_log_details host req u tev status content lat) "metadata").bind
        (fun p => jfind p "correlation_id") = some (.str u) ∧
      jfind (build_log_details host req u tev status content lat) "correlation_id" = none :=
  fun _ _ _ _ _ _ _ => ⟨rfl, rfl, rfl, rfl, rfl, rfl, rfl, rfl, rfl, rfl, rfl⟩

/-- C9 counterexample: the record a concrete logged request submits has no
top-level `correlation_id` member — the identifier sits inside `metadata` —
contradicting the claim that `correlation_id` is a top-level field of the
record alongside `request`, `response` and `metadata`. -/
theorem C9_record_shape_counterexample :
    (dispatch 1 2 "h" initAgg plainReq "cid" 0 0 0 0 (fun _ => .ok plainResp)).2
      = .ok ⟨plainResp, [],
          [(build_log_details "h" plainReq "cid" 0 plainResp.status_code
            "Skipped logging due to content type" (0 - 0),
            determine_log_level 2 plainResp.status_code (0 - 0))],
          ⟨1, [(200, 1)]⟩⟩ ∧
    jfind (build_log_details "h" plainReq "cid" 0 plainResp.status_code
      "Skipped logging due to content type" (0 - 0)) "correlation_id" = none ∧
    (jfind (build_log_details "h" plainReq "cid" 0 plainResp.status_code
      "Skipped logging due to content type" (0 - 0)) "metadata").bind
      (fun p => jfind p "correlation_id") = some (Json.str "cid") :=
  ⟨rfl, rfl, rfl⟩

/-- C10: the query parameters enter the record verbatim through `dict(...)`
with no sensitive-field redaction — `password` and `token` query parameters
appear unmasked, although the same names in a JSON body are masked by the
redactor. -/
theorem C10_query_params_unredacted :
    (∀ (host : String) (req : Request) (u : String) (tev : ℚ) (status : Nat)
      (content : String) (lat : ℚ),
      (jfind (build_log_details host req u tev status content lat) "request").bind
        (fun p => jfind p "query_params")
        = some (strPairsToJson (pyDict req.query_params))) ∧
    (jfind (build_log_details "h" sensReq "cid" 0 200 "c" 0) "request").bind
      (fun p => jfind p "query_params")
      = some (Json.obj (objOfList
          [("password", Json.str "hunter2"), ("token", Json.str "tok")])) ∧
    mask_sensitive_data (Json.obj (objOfList
        [("password", Json.str "hunter2"), ("token", Json.str "tok")]))
      = Json.obj (objOfList [("password", Json.str "*****"), ("token", Json.str "*****")]) :=
  ⟨fun _ _ _ _ _ _ _ => rfl, rfl, rfl⟩
